import Mathlib

/-!
# QuickListing — usage-quota and subscription-state subsystem, shallow embedding

This file embeds the quota/plan middleware of the QuickListing repository in
Lean 4 and proves the frozen claims about it.  The repository contains three
server variants:

* `src/unnamed/part_000` — the Redis-backed production backend
  (`usageGuard`, `monthKey`, Stripe webhook);
* `src/unnamed/part_001` (first variant) — the Redis-backed middleware that
  increments before checking the cap;
* `src/server.js` (first variant) — the in-process `Map` MVP middleware whose
  billing period is the bare month index `new Date().getMonth()`.

JavaScript machine integers never overflow here (counters stay far below
2^53), so counters are modelled as `Nat`.  Redis is modelled as an
association list keyed by the literal key strings the code builds; a `set`
conses the new binding in front (last writer wins, exactly the observable
semantics of overwriting a key).  The `try/catch` failure paths are modelled
by explicit boolean failure flags at each `await` site that can throw.
-/

namespace QuickListing

/-- JavaScript string "or": `a || b` returns `b` when `a` is `undefined`
(`none`) or the empty string (falsy), else `a`. -/
def jsOrStr (a : Option String) (b : String) : String :=
  match a with
  | none => b
  | some s => if s = "" then b else s

/-- Whitespace characters relevant to the ASCII header and body values the
server trims (JavaScript `trim()` also strips other Unicode space, which
never occurs in these values). -/
def jsWhitespace (c : Char) : Bool :=
  c = ' ' || c = '\t' || c = '\n' || c = '\r'

/-- Model of JavaScript `String.prototype.trim()`: strip whitespace from
both ends. -/
def jsTrim (s : String) : String :=
  ⟨((s.data.dropWhile jsWhitespace).reverse.dropWhile jsWhitespace).reverse⟩

/-- Model of JavaScript `String.prototype.toLowerCase()` on the ASCII values
the server lower-cases. -/
def jsToLower (s : String) : String :=
  ⟨s.data.map Char.toLower⟩

/-- Decimal digit character, the model of how JavaScript renders one digit of
a number. -/
def digitChar (d : Nat) : Char :=
  if d = 0 then '0' else if d = 1 then '1' else if d = 2 then '2'
  else if d = 3 then '3' else if d = 4 then '4' else if d = 5 then '5'
  else if d = 6 then '6' else if d = 7 then '7' else if d = 8 then '8'
  else '9'

/-- Fuel-driven decimal rendering of a natural number (most significant digit
first).  The fuel argument only serves termination; `natDigits` supplies
enough fuel. -/
def natDigitsAux : Nat → Nat → List Char
  | 0, _ => []
  | fuel + 1, n =>
    if n < 10 then [digitChar n]
    else natDigitsAux fuel (n / 10) ++ [digitChar (n % 10)]

/-- Decimal digit string of a natural number, the model of JavaScript
`String(n)` / template-literal rendering for the non-negative integers used
by the server. -/
def natDigits (n : Nat) : List Char :=
  natDigitsAux (n + 1) n

/-- JavaScript `String(n)` for a non-negative integer `n`. -/
def natToString (n : Nat) : String :=
  ⟨natDigits n⟩

/-- Model of `String(k).padStart(2, "0")` (part_000 line 47): prepend a `'0'`
when the decimal rendering is shorter than two characters. -/
def pad2Chars (k : Nat) : List Char :=
  if (natDigits k).length < 2 then '0' :: natDigits k else natDigits k

/-- Character list of the billing-period key of part_000 `monthKey`
(lines 45–48) and part_001 line 92:
`` `${y}-${String(m+1).padStart(2,"0")}` `` where `y = getUTCFullYear()` and
`m = getUTCMonth()` (0-based). -/
def monthKeyChars (y m : Nat) : List Char :=
  natDigits y ++ '-' :: pad2Chars (m + 1)

/-- Billing-period key string computed by part_000/part_001 for calendar
month `(y, m)` with `m` 0-based. -/
def monthKey (y m : Nat) : String :=
  ⟨monthKeyChars y m⟩

/-- The period key of the `src/server.js` cap middleware, line 59:
`const month = new Date().getMonth()` — the bare month index, ignoring the
year. -/
def monthIdxKey (y m : Nat) : Nat :=
  let _ := y
  m

/-- Successor calendar month of `(y, m)` with `m` 0-based. -/
def succMonth (y m : Nat) : Nat × Nat :=
  if m = 11 then (y + 1, 0) else (y, m + 1)

/-- Key-value lookup in the association-list model of a key-value store:
first binding wins. -/
def rget {α : Type} (s : List (String × α)) (k : String) : Option α :=
  (s.find? (fun p => p.1 = k)).map (fun p => p.2)

/-- Key-value write: the new binding shadows any older one. -/
def rset {α : Type} (s : List (String × α)) (k : String) (v : α) :
    List (String × α) :=
  (k, v) :: s

/-- Plan caps of part_000 line 42 and part_001 line 67:
`const CAPS = { free: 10, starter: 150, growth: 500 }`. -/
def CAPS (p : String) : Option Nat :=
  if p = "free" then some 10
  else if p = "starter" then some 150
  else if p = "growth" then some 500
  else none

/-- Stripe price id constant of part_000 line 149. -/
def STARTER_PRICE : String := "price_1SUjjT4RsMwSLTmtpamYSCca"

/-- Stripe price id constant of part_000 line 150. -/
def GROWTH_PRICE : String := "price_1SUjkD4RsMwSLTmttJmPB8dX"

/-- Usage record stored by part_000 line 92:
`{ used, plan, month, updatedAt: Date.now() }`. -/
structure UsageRec where
  used : Nat
  plan : String
  month : String
  updatedAt : Nat
deriving DecidableEq, Repr

/-- Redis state seen by part_000: the `ql:plan:*` keyspace and the
`ql:usage:*` keyspace (the two prefixes never collide). -/
structure Store0 where
  plans : List (String × String)
  usage : List (String × UsageRec)
deriving DecidableEq, Repr

/-- The empty Redis state. -/
def store0Empty : Store0 := ⟨[], []⟩

/-- Body of the 402 response (part_000 lines 84–87, part_001 lines 129–132):
`{ error, plan, limit, used }`; the claims only inspect the three counters. -/
structure RejectBody where
  plan : String
  limit : Nat
  used : Nat
deriving DecidableEq, Repr

/-- Outcome of one middleware invocation: whether `next()` was reached, the
HTTP status written (if any), the `X-Plan` / `X-Remaining` headers (if set),
the 402 body (if any), and the store after the call. -/
structure GateResult0 where
  admitted : Bool
  status : Option Nat
  xPlan : Option String
  xRemaining : Option String
  body : Option RejectBody
  store : Store0
deriving DecidableEq, Repr

/-- part_000 request metadata consumed by `usageGuard`. -/
structure Req0 where
  adminKeyHdr : Option String
  userIdHdr : Option String
  ip : Option String
deriving DecidableEq, Repr

/-- part_000 environment: `process.env.ADMIN_KEY`. -/
structure Env0 where
  adminKey : Option String
deriving DecidableEq, Repr

/-- part_000 lines 57–59: `ADMIN_KEY = process.env.ADMIN_KEY || ""` and
`adminHeader && adminHeader === ADMIN_KEY` (a header is truthy when present
and non-empty). -/
def isAdminReq (env : Env0) (req : Req0) : Bool :=
  match req.adminKeyHdr with
  | none => false
  | some h => h ≠ "" && h = env.adminKey.getD ""

/-- part_000 lines 66–69: the identity is the trimmed `x-user-id` header,
else `req.ip || "unknown"`. -/
def resolveUserId (userIdHdr : Option String) (ip : Option String) : String :=
  let u := jsTrim (userIdHdr.getD "")
  if u = "" then jsOrStr ip "unknown" else u

/-- Identity the part_000 guard resolves for a request. -/
def reqUid (req : Req0) : String :=
  resolveUserId req.userIdHdr req.ip

/-- part_000 line 76: `` `ql:usage:${userId}:${month}` ``. -/
def usageKey (uid month : String) : String :=
  "ql:usage:" ++ uid ++ ":" ++ month

/-- Usage ledger key the part_000 guard reads for a request at calendar
month `(y, m)`. -/
def reqKey (req : Req0) (y m : Nat) : String :=
  usageKey (reqUid req) (monthKey y m)

/-- part_000 line 72: `(await redis.get(planKey)) || "free"`. -/
def planOf0 (s : Store0) (uid : String) : String :=
  jsOrStr (rget s.plans ("ql:plan:" ++ uid)) "free"

/-- part_000 line 79: `record?.used ?? 0`. -/
def usedOf (s : Store0) (key : String) : Nat :=
  match rget s.usage key with
  | some r => r.used
  | none => 0

/-- Result of the `catch` branch of part_000 lines 99–102: `next()` with no
headers, no status, and the store untouched (fail-open, unmetered). -/
def failOpen0 (s : Store0) : GateResult0 :=
  ⟨true, none, none, none, none, s⟩

/-- Shallow embedding of part_000 `usageGuard` (lines 54–103) at calendar
month `(y, m)` and wall-clock `nowMs = Date.now()`.  The three flags inject a
thrown error at the three `await redis.*` sites (plan `get`, usage `get`,
usage `set`); any throw lands in the `catch` and produces `failOpen0`. -/
def usageGuard0 (env : Env0) (req : Req0) (y m nowMs : Nat)
    (failPlan failRead failWrite : Bool) (s : Store0) : GateResult0 :=
  if isAdminReq env req then
    ⟨true, none, some "boss", some "INF", none, s⟩
  else if failPlan then failOpen0 s
  else
    let plan := planOf0 s (reqUid req)
    let limit := (CAPS plan).getD 10
    let key := reqKey req y m
    if failRead then failOpen0 s
    else
      let used := usedOf s key
      if limit ≤ used then
        ⟨false, some 402, some plan, some (natToString 0), some ⟨plan, limit, used⟩, s⟩
      else if failWrite then failOpen0 s
      else
        ⟨true, none, some plan, some (natToString (limit - (used + 1))), none,
          ⟨s.plans, rset s.usage key ⟨used + 1, plan, monthKey y m, nowMs⟩⟩⟩

/-- Usage record stored by the part_001 middleware (`{ month, plan, used }`,
lines 105–113). -/
structure Rec1 where
  month : String
  plan : String
  used : Nat
deriving DecidableEq, Repr

/-- Outcome of one part_001 middleware invocation. -/
structure GateResult1 where
  admitted : Bool
  status : Option Nat
  xPlan : Option String
  xRemaining : Option String
  body : Option RejectBody
  store : List (String × Rec1)
deriving DecidableEq, Repr

/-- part_001 lines 80–81: trimmed `x-admin-key` header, truthy, strictly
equal to `process.env.ADMIN_KEY` (an unset env never equals a string). -/
def isAdmin1 (adminHdr adminKeyEnv : Option String) : Bool :=
  let h := jsTrim (jsOrStr adminHdr "")
  h ≠ "" && (match adminKeyEnv with
    | some k => h = k
    | none => false)

/-- part_001 lines 69–72: the plan is the lower-cased, trimmed `x-plan`
header when it names a known tier, else `"free"`. -/
def getPlan1 (hdr : Option String) : String :=
  let p := jsTrim (jsToLower (jsOrStr hdr "free"))
  if p = "free" ∨ p = "starter" ∨ p = "growth" then p else "free"

/-- part_001 line 79 reads `record?.used` analogously to part_000: effective
used count under the first-variant store. -/
def usedOf1 (s : List (String × Rec1)) (key : String) : Nat :=
  match rget s key with
  | some r => r.used
  | none => 0

/-- Shallow embedding of the part_001 usage middleware (lines 76–136) for a
request that reaches `/generate`, at calendar month `(y, m)`.  `failRead`
injects a throw at `redis.get` (line 99, caught locally: `rec = null`);
`failWrite` injects a throw at `redis.set` (line 116, caught locally:
headers are set and the request is admitted with the store untouched).
Note the order: the record is incremented and persisted *before* the cap
check `rec.used > limit` (lines 113–128). -/
def middleware001 (adminHdr adminKeyEnv planHdr : Option String)
    (visitorId : String) (y m : Nat) (failRead failWrite : Bool)
    (s : List (String × Rec1)) : GateResult1 :=
  if isAdmin1 adminHdr adminKeyEnv then
    ⟨true, none, some "boss", some "∞", none, s⟩
  else
    let plan := getPlan1 planHdr
    let month := monthKey y m
    let limit := (CAPS plan).getD 0
    let key := "usage:" ++ visitorId
    let rec0 : Option Rec1 := if failRead then none else rget s key
    let rec1 : Rec1 :=
      match rec0 with
      | none => ⟨month, plan, 0⟩
      | some r => r
    let rec2 : Rec1 := if rec1.month ≠ month then ⟨month, rec1.plan, 0⟩ else rec1
    let rec3 : Rec1 := ⟨rec2.month, plan, rec2.used + 1⟩
    if failWrite then
      ⟨true, none, some plan, some (natToString limit), none, s⟩
    else
      let s1 := rset s key rec3
      if limit < rec3.used then
        ⟨false, some 402, some plan, some (natToString (limit - rec3.used)),
          some ⟨plan, limit, rec3.used⟩, s1⟩
      else
        ⟨true, none, some plan, some (natToString (limit - rec3.used)), none, s1⟩

/-- Plan caps of `src/server.js` line 43:
`const CAPS = { free: 15, starter: 150, pro: 600, office: 2000 }`. -/
def CAPSMvp (p : String) : Option Nat :=
  if p = "free" then some 15
  else if p = "starter" then some 150
  else if p = "pro" then some 600
  else if p = "office" then some 2000
  else none

/-- `src/server.js` lines 45–48: lower-cased `x-plan` header when it names a
known tier, else `"free"` (no trim in this variant). -/
def getPlanMvp (hdr : Option String) : String :=
  let p := jsToLower (jsOrStr hdr "free")
  if p = "free" ∨ p = "starter" ∨ p = "pro" ∨ p = "office" then p else "free"

/-- Usage record of the `src/server.js` in-process map:
`{ month, used, plan }` with `month` the bare month index. -/
structure RecMvp where
  month : Nat
  used : Nat
  plan : String
deriving DecidableEq, Repr

/-- Outcome of one `src/server.js` cap-middleware invocation (its 402 body
carries only an error message, no counters). -/
structure GateResultMvp where
  admitted : Bool
  status : Option Nat
  xPlan : Option String
  xRemaining : Option String
  store : List (String × RecMvp)
deriving DecidableEq, Repr

/-- Effective used count the `src/server.js` middleware reads at month index
`m`: lines 61–62, `if (!rec || rec.month !== month) rec = { month, used: 0,
plan }`. -/
def usedOfMvp (s : List (String × RecMvp)) (ip : String) (m : Nat) : Nat :=
  match rget s ip with
  | some r => if r.month = m then r.used else 0
  | none => 0

/-- Shallow embedding of the `src/server.js` cap middleware (lines 51–80)
for a `/generate` request from address `ip` at month index `m`
(`new Date().getMonth()`, line 59 — no year).  Check happens before the
increment; the map is only written on the admit path. -/
def capMvp (planHdr : Option String) (ip : String) (m : Nat)
    (s : List (String × RecMvp)) : GateResultMvp :=
  let plan := getPlanMvp planHdr
  let limit := (CAPSMvp plan).getD 0
  let used := usedOfMvp s ip m
  if limit ≤ used then
    ⟨false, some 402, some plan, some (natToString 0), s⟩
  else
    ⟨true, none, some plan, some (natToString (limit - (used + 1))),
      rset s ip ⟨m, used + 1, plan⟩⟩

/-- Payment-provider event fields that part_000's webhook handler reads
(lines 192–210): the event type, `session.metadata.userId` and the first
line item's price id for `checkout.session.completed`, and `sub.customer`
for `customer.subscription.deleted`. -/
structure WebhookEvent where
  type : String
  metadataUserId : String
  priceId : String
  customer : String
deriving DecidableEq, Repr

/-- Model of `stripe.webhooks.constructEvent(req.rawBody, sig, secret)`
(part_000 line 185): returns the parsed event when the signature verifies
against the raw payload and throws otherwise.  The cryptographic check is
abstracted into the boolean `sigOk`, a function of the raw body, the
`stripe-signature` header, and the webhook secret. -/
def constructEvent (sigOk : Bool) (ev : WebhookEvent) : Option WebhookEvent :=
  if sigOk then some ev else none

/-- Shallow embedding of `app.post("/stripe/webhook")` (part_000 lines
180–213): on signature failure respond 400 and leave the store untouched;
otherwise apply the plan transition and respond 200.  Note that activation
writes `ql:plan:${session.metadata.userId}` while cancellation writes
`ql:plan:${sub.customer}` (the Stripe customer id). -/
def webhook0 (sigOk : Bool) (ev : WebhookEvent) (s : Store0) : Nat × Store0 :=
  match constructEvent sigOk ev with
  | none => (400, s)
  | some e =>
    let s1 :=
      if e.type = "checkout.session.completed" then
        let plan :=
          if e.priceId = STARTER_PRICE then "starter"
          else if e.priceId = GROWTH_PRICE then "growth"
          else "free"
        { s with plans := rset s.plans ("ql:plan:" ++ e.metadataUserId) plan }
      else s
    let s2 :=
      if e.type = "customer.subscription.deleted" then
        { s1 with plans := rset s1.plans ("ql:plan:" ++ e.customer) "free" }
      else s1
    (200, s2)

/-- Outcome of the whole part_000 `/generate` pipeline: rejected by the
guard (402), rejected by body validation (`res.status(400)`, line 114), or
handed to the upstream generation collaborator. -/
inductive PipeOutcome
  | gateReject
  | badRequest
  | upstream
deriving DecidableEq, Repr

/-- HTTP status of a pipeline outcome; `upstream` depends on the external
collaborator and is not determined here. -/
def pipeStatus : PipeOutcome → Option Nat
  | PipeOutcome.gateReject => some 402
  | PipeOutcome.badRequest => some 400
  | PipeOutcome.upstream => none

/-- Composition of part_000's `usageGuard` with the `/generate` body
validation (lines 111–114): the guard runs first (it is the route
middleware), and only then is `features.trim()` checked. -/
def pipeline0 (env : Env0) (req : Req0) (y m nowMs : Nat)
    (features : String) (s : Store0) : PipeOutcome × Store0 :=
  let r := usageGuard0 env req y m nowMs false false false s
  if r.admitted then
    if jsTrim features = "" then (PipeOutcome.badRequest, r.store)
    else (PipeOutcome.upstream, r.store)
  else (PipeOutcome.gateReject, r.store)

/-- Sequential (serialized) execution of `n` part_000 guard invocations for
the same request shape, threading the store; returns the final store, the
number of admitted requests, and the number of rejected requests. -/
def runGuard0Seq (env : Env0) (req : Req0) (y m nowMs : Nat) :
    Nat → Store0 → Store0 × Nat × Nat
  | 0, s => (s, 0, 0)
  | n + 1, s =>
    let r := usageGuard0 env req y m nowMs false false false s
    let rest := runGuard0Seq env req y m nowMs n r.store
    (rest.1, (if r.admitted then 1 else 0) + rest.2.1,
      (if r.admitted then 0 else 1) + rest.2.2)

/-- One in-flight part_000 guard invocation in the interleaved model:
`phase = 0` — about to execute `await redis.get(key)` (line 78);
`phase = 1` — holds the observed `used` value, about to run the check
(line 81) and, if admitting, `await redis.set(key, {used: observed+1, ...})`
(lines 91–92); `phase = 2` — finished, with its admit/reject decision. -/
structure CReq where
  phase : Nat
  observed : Nat
  admitted : Bool
deriving DecidableEq, Repr

/-- Shared state of the interleaved model: the stored `used` counter for the
one (identity, period) ledger key, plus the per-request states. -/
structure CState where
  stored : Nat
  reqs : List CReq
deriving DecidableEq, Repr

/-- One atomic step of request `i` in the interleaved model.  The store
operations (`get`, `set`) are the atomic actions; the write stores
`observed + 1`, exactly the `used += 1; redis.set(key, {used, ...})` of
part_000 lines 90–92 — a client-side read-modify-write, not a server-side
increment. -/
def cstep (limit : Nat) (st : CState) (i : Nat) : CState :=
  match st.reqs[i]? with
  | none => st
  | some r =>
    if r.phase = 0 then
      { st with reqs := st.reqs.set i ⟨1, st.stored, r.admitted⟩ }
    else if r.phase = 1 then
      if limit ≤ r.observed then
        { st with reqs := st.reqs.set i ⟨2, r.observed, false⟩ }
      else
        { stored := r.observed + 1, reqs := st.reqs.set i ⟨2, r.observed, true⟩ }
    else st

/-- Run the interleaved model under a schedule (list of request indices). -/
def crun (limit : Nat) (st : CState) : List Nat → CState
  | [] => st
  | i :: rest => crun limit (cstep limit st i) rest

/-- Number of admitted requests in an interleaved-model state. -/
def admittedCount (st : CState) : Nat :=
  (st.reqs.filter (fun r => r.admitted)).length

/-- `n` concurrent requests, none started yet. -/
def freshReqs (n : Nat) : List CReq :=
  List.replicate n ⟨0, 0, false⟩

/-! ## Basic store lemmas -/

theorem rget_rset_self {α : Type} (s : List (String × α)) (k : String) (v : α) :
    rget (rset s k v) k = some v := by
  simp [rget, rset]

theorem rget_rset_ne {α : Type} (s : List (String × α)) (k k' : String) (v : α)
    (h : k' ≠ k) : rget (rset s k v) k' = rget s k' := by
  have hd : (decide (k = k')) = false := by
    simp only [decide_eq_false_iff_not]
    exact fun h' => h h'.symm
  simp [rget, rset, List.find?, hd]

theorem planOf0_usage_irrel (pl : List (String × String))
    (u1 u2 : List (String × UsageRec)) (uid : String) :
    planOf0 ⟨pl, u1⟩ uid = planOf0 ⟨pl, u2⟩ uid := rfl

/-! ## Step lemmas for the part_000 guard -/

theorem guard0_reject (env : Env0) (req : Req0) (y m nowMs : Nat) (s : Store0)
    (hadm : isAdminReq env req = false)
    (hused : (CAPS (planOf0 s (reqUid req))).getD 10 ≤ usedOf s (reqKey req y m)) :
    usageGuard0 env req y m nowMs false false false s =
      ⟨false, some 402, some (planOf0 s (reqUid req)), some (natToString 0),
        some ⟨planOf0 s (reqUid req), (CAPS (planOf0 s (reqUid req))).getD 10,
          usedOf s (reqKey req y m)⟩, s⟩ := by
  simp [usageGuard0, hadm, hused]

theorem guard0_allow (env : Env0) (req : Req0) (y m nowMs : Nat) (s : Store0)
    (hadm : isAdminReq env req = false)
    (hlt : usedOf s (reqKey req y m) < (CAPS (planOf0 s (reqUid req))).getD 10) :
    usageGuard0 env req y m nowMs false false false s =
      ⟨true, none, some (planOf0 s (reqUid req)),
        some (natToString ((CAPS (planOf0 s (reqUid req))).getD 10 -
          (usedOf s (reqKey req y m) + 1))), none,
        ⟨s.plans, rset s.usage (reqKey req y m)
          ⟨usedOf s (reqKey req y m) + 1, planOf0 s (reqUid req), monthKey y m, nowMs⟩⟩⟩ := by
  have h' : ¬ ((CAPS (planOf0 s (reqUid req))).getD 10 ≤ usedOf s (reqKey req y m)) :=
    Nat.not_le_of_lt hlt
  simp [usageGuard0, hadm, h']

/-- After an admitted step, the used counter at the request's key is one
higher and the plan resolution is untouched. -/
theorem guard0_allow_store (env : Env0) (req : Req0) (y m nowMs : Nat) (s : Store0)
    (hadm : isAdminReq env req = false)
    (hlt : usedOf s (reqKey req y m) < (CAPS (planOf0 s (reqUid req))).getD 10) :
    usedOf (usageGuard0 env req y m nowMs false false false s).store (reqKey req y m) =
        usedOf s (reqKey req y m) + 1 ∧
      planOf0 (usageGuard0 env req y m nowMs false false false s).store (reqUid req) =
        planOf0 s (reqUid req) := by
  rw [guard0_allow env req y m nowMs s hadm hlt]
  constructor
  · simp [usedOf, rget_rset_self]
  · rfl

/-! ## Sequential execution of the part_000 guard -/

/-- Exact bookkeeping of `n` serialized part_000 guard invocations: with
limit `L` and starting used count `u ≤ L`, the run admits `min n (L - u)`
requests, rejects the rest, leaves the counter at `min (u + n) L`, and never
touches the plan resolution. -/
theorem runSeq0_spec (env : Env0) (req : Req0) (y m nowMs : Nat) (L : Nat)
    (hadm : isAdminReq env req = false) :
    ∀ (n : Nat) (s : Store0) (u : Nat),
      (CAPS (planOf0 s (reqUid req))).getD 10 = L →
      usedOf s (reqKey req y m) = u → u ≤ L →
      (runGuard0Seq env req y m nowMs n s).2.1 = min n (L - u) ∧
      (runGuard0Seq env req y m nowMs n s).2.2 = n - min n (L - u) ∧
      usedOf (runGuard0Seq env req y m nowMs n s).1 (reqKey req y m) = min (u + n) L ∧
      planOf0 (runGuard0Seq env req y m nowMs n s).1 (reqUid req) = planOf0 s (reqUid req) := by
  intro n
  induction n with
  | zero =>
    intro s u hL hu huL
    simp [runGuard0Seq, hu]
    omega
  | succ n ih =>
    intro s u hL hu huL
    by_cases hfull : L ≤ u
    · have hulim : u = L := Nat.le_antisymm huL hfull
      have hrej : (CAPS (planOf0 s (reqUid req))).getD 10 ≤ usedOf s (reqKey req y m) := by
        rw [hL, hu, hulim]
      have hstep := guard0_reject env req y m nowMs s hadm hrej
      have h1 : (usageGuard0 env req y m nowMs false false false s).admitted = false := by
        rw [hstep]
      have h2 : (usageGuard0 env req y m nowMs false false false s).store = s := by
        rw [hstep]
      have ihs := ih s u hL hu huL
      refine ⟨?_, ?_, ?_, ?_⟩
      · simp only [runGuard0Seq, h1, h2]
        simp only [ihs.1]
        simp
        omega
      · simp only [runGuard0Seq, h1, h2]
        simp only [ihs.2.1]
        simp
        omega
      · simp only [runGuard0Seq, h1, h2]
        rw [ihs.2.2.1]
        omega
      · simp only [runGuard0Seq, h1, h2]
        exact ihs.2.2.2
    · have hlt : usedOf s (reqKey req y m) < (CAPS (planOf0 s (reqUid req))).getD 10 := by
        rw [hL, hu]; omega
      have hstep := guard0_allow_store env req y m nowMs s hadm hlt
      have hadmres : (usageGuard0 env req y m nowMs false false false s).admitted = true := by
        rw [guard0_allow env req y m nowMs s hadm hlt]
      have hL' : (CAPS (planOf0 (usageGuard0 env req y m nowMs false false false s).store
          (reqUid req))).getD 10 = L := by
        rw [hstep.2, hL]
      have hu' : usedOf (usageGuard0 env req y m nowMs false false false s).store
          (reqKey req y m) = u + 1 := by
        rw [hstep.1, hu]
      have ihs := ih (usageGuard0 env req y m nowMs false false false s).store (u + 1) hL' hu'
        (by omega)
      refine ⟨?_, ?_, ?_, ?_⟩
      · simp only [runGuard0Seq, hadmres]
        simp only [ihs.1]
        simp
        omega
      · simp only [runGuard0Seq, hadmres]
        simp only [ihs.2.1]
        simp
        omega
      · simp only [runGuard0Seq, hadmres]
        rw [ihs.2.2.1]
        omega
      · simp only [runGuard0Seq, hadmres]
        rw [ihs.2.2.2, hstep.2]

/-! ## C1 — concurrent admissions -/

/-- C1 (counterexample): the claim "N concurrent requests with cap L < N are
admitted exactly L times under any interleaving; the ledger update acts as an
atomic compare-and-increment" is false for the part_000 guard.  With
`limit = 1` and two concurrent requests, the interleaving get₁, get₂, set₁,
set₂ — both requests execute `await redis.get` (line 78) before either
reaches the check and `await redis.set` (lines 81–92) — admits both
requests: both observe `used = 0 < 1`, and the second blind `set` overwrites
the first.  The claim demands exactly `L = 1` admission. -/
theorem c1_race_two_admitted_counterexample :
    admittedCount (crun 1 ⟨0, freshReqs 2⟩ [0, 1, 0, 1]) = 2 ∧ (2 : Nat) ≠ 1 := by
  decide

/-- C1 (amended): under *serialized* execution of the part_000 guard, `N`
requests for one identity with cap `L < N` in one billing period are admitted
exactly `L` times and rejected exactly `N - L` times; the read-check-increment
is a client-side read-modify-write with no atomicity across its two `await`
points, so concurrent interleavings can admit more than `L`. -/
theorem c1_sequential_exactly_L_admitted (env : Env0) (req : Req0)
    (y m nowMs L N : Nat) (s : Store0)
    (hadm : isAdminReq env req = false)
    (hL : (CAPS (planOf0 s (reqUid req))).getD 10 = L)
    (h0 : usedOf s (reqKey req y m) = 0)
    (hLN : L < N) :
    (runGuard0Seq env req y m nowMs N s).2.1 = L ∧
    (runGuard0Seq env req y m nowMs N s).2.2 = N - L := by
  have h := runSeq0_spec env req y m nowMs L hadm N s 0 hL h0 (Nat.zero_le L)
  refine ⟨?_, ?_⟩
  · rw [h.1]; omega
  · rw [h.2.1]; omega

/-- Witness for `c1_sequential_exactly_L_admitted`: the free plan (cap 10)
with 12 serialized requests from a fresh store admits 10 and rejects 2. -/
theorem c1_sequential_witness :
    (runGuard0Seq ⟨some "k"⟩ ⟨none, some "u1", none⟩ 2025 10 0 12 store0Empty).2.1 = 10 ∧
    (runGuard0Seq ⟨some "k"⟩ ⟨none, some "u1", none⟩ 2025 10 0 12 store0Empty).2.2 = 12 - 10 :=
  c1_sequential_exactly_L_admitted ⟨some "k"⟩ ⟨none, some "u1", none⟩ 2025 10 0 10 12
    store0Empty (by decide) (by decide) (by decide) (by decide)

/-! ## C2 — the (cap+1)-th request in a period -/

/-- Sequential execution of `n` part_001 middleware invocations for one
visitor, threading the store; returns the final store, the number of
admitted requests, and the number of rejected requests. -/
def runMw1Seq (adminHdr adminKeyEnv planHdr : Option String) (visitorId : String)
    (y m : Nat) : Nat → List (String × Rec1) → List (String × Rec1) × Nat × Nat
  | 0, s => (s, 0, 0)
  | n + 1, s =>
    let r := middleware001 adminHdr adminKeyEnv planHdr visitorId y m false false s
    let rest := runMw1Seq adminHdr adminKeyEnv planHdr visitorId y m n r.store
    (rest.1, (if r.admitted then 1 else 0) + rest.2.1,
      (if r.admitted then 0 else 1) + rest.2.2)

/-- C2 (counterexample): in the part_001 middleware the counter is
incremented and persisted *before* the cap check, so after 10 admitted free
requests the 11th is rejected with a body reporting `used = 11`, not
`used == limit == 10` as the claim states. -/
theorem c2_part001_body_eleven_counterexample :
    (runMw1Seq none none none "v1" 2025 10 10 []).2.1 = 10 ∧
    (runMw1Seq none none none "v1" 2025 10 10 []).2.2 = 0 ∧
    (middleware001 none none none "v1" 2025 10 false false
        (runMw1Seq none none none "v1" 2025 10 10 []).1).status = some 402 ∧
    (middleware001 none none none "v1" 2025 10 false false
        (runMw1Seq none none none "v1" 2025 10 10 []).1).body =
      some ⟨"free", 10, 11⟩ ∧
    (11 : Nat) ≠ 10 := by
  decide

/-- C2 (amended): for the part_000 guard the claim holds as stated — after
`cap(plan)` consecutive admitted requests in one billing period from a fresh
counter, the `(cap+1)`-th request in the same period is rejected with HTTP
402 and a body reporting `used == limit == cap(plan)`.  (In the part_001
middleware the 402 body instead reports `used == cap(plan) + 1`.) -/
theorem c2_cap_then_402_used_eq_limit (env : Env0) (req : Req0)
    (y m nowMs L : Nat) (s : Store0)
    (hadm : isAdminReq env req = false)
    (hL : (CAPS (planOf0 s (reqUid req))).getD 10 = L)
    (h0 : usedOf s (reqKey req y m) = 0) :
    (runGuard0Seq env req y m nowMs L s).2.1 = L ∧
    (runGuard0Seq env req y m nowMs L s).2.2 = 0 ∧
    usageGuard0 env req y m nowMs false false false (runGuard0Seq env req y m nowMs L s).1 =
      ⟨false, some 402, some (planOf0 s (reqUid req)), some (natToString 0),
        some ⟨planOf0 s (reqUid req), L, L⟩, (runGuard0Seq env req y m nowMs L s).1⟩ := by
  have h := runSeq0_spec env req y m nowMs L hadm L s 0 hL h0 (Nat.zero_le L)
  have hplan : planOf0 (runGuard0Seq env req y m nowMs L s).1 (reqUid req) =
      planOf0 s (reqUid req) := h.2.2.2
  have hused : usedOf (runGuard0Seq env req y m nowMs L s).1 (reqKey req y m) = L := by
    rw [h.2.2.1]; omega
  have hcap' : (CAPS (planOf0 (runGuard0Seq env req y m nowMs L s).1 (reqUid req))).getD 10 =
      L := by
    rw [hplan, hL]
  have hrej := guard0_reject env req y m nowMs (runGuard0Seq env req y m nowMs L s).1 hadm
    (by rw [hcap', hused])
  refine ⟨by rw [h.1]; omega, by rw [h.2.1]; omega, ?_⟩
  rw [hrej, hplan, hL, hused]

/-- Witness for `c2_cap_then_402_used_eq_limit`: identity `"u1"` on the free
plan (cap 10) in `2025-11` from an empty store — 10 admitted, the 11th
rejected with `used = limit = 10`. -/
theorem c2_cap_witness :
    (runGuard0Seq ⟨some "k"⟩ ⟨none, some "u1", none⟩ 2025 10 0 10 store0Empty).2.1 = 10 ∧
    (runGuard0Seq ⟨some "k"⟩ ⟨none, some "u1", none⟩ 2025 10 0 10 store0Empty).2.2 = 0 ∧
    usageGuard0 ⟨some "k"⟩ ⟨none, some "u1", none⟩ 2025 10 0 false false false
        (runGuard0Seq ⟨some "k"⟩ ⟨none, some "u1", none⟩ 2025 10 0 10 store0Empty).1 =
      ⟨false, some 402, some "free", some (natToString 0), some ⟨"free", 10, 10⟩,
        (runGuard0Seq ⟨some "k"⟩ ⟨none, some "u1", none⟩ 2025 10 0 10 store0Empty).1⟩ :=
  c2_cap_then_402_used_eq_limit ⟨some "k"⟩ ⟨none, some "u1", none⟩ 2025 10 0 10
    store0Empty (by decide) (by decide) (by decide)

/-! ## C3 — reject without mutation, admit with single increment -/

/-- C3 (counterexample): the part_001 middleware does not leave the quota
record unchanged when the stored count is at the limit — it increments and
persists `used = 11` for a free-plan visitor already at `used = 10`, while
rejecting the request with 402. -/
theorem c3_part001_persists_on_reject_counterexample :
    (middleware001 none none none "v1" 2025 10 false false
        [("usage:v1", ⟨monthKey 2025 10, "free", 10⟩)]).status = some 402 ∧
    (middleware001 none none none "v1" 2025 10 false false
        [("usage:v1", ⟨monthKey 2025 10, "free", 10⟩)]).admitted = false ∧
    (middleware001 none none none "v1" 2025 10 false false
        [("usage:v1", ⟨monthKey 2025 10, "free", 10⟩)]).store ≠
      [("usage:v1", ⟨monthKey 2025 10, "free", 10⟩)] ∧
    usedOf1 (middleware001 none none none "v1" 2025 10 false false
        [("usage:v1", ⟨monthKey 2025 10, "free", 10⟩)]).store "usage:v1" = 11 := by
  decide

/-- C3 (amended): for the part_000 guard and the `src/server.js` cap
middleware the claim holds as stated — a stored count at or above the limit
yields `allowed = false` with the store untouched, and an admitted request
increments the count by exactly one and persists it.  (The part_001
middleware instead persists the increment even on the reject path.) -/
theorem c3_reject_no_mutation_admit_increment (env : Env0) (req : Req0)
    (y m nowMs : Nat) (s : Store0)
    (hadm : isAdminReq env req = false) :
    ((CAPS (planOf0 s (reqUid req))).getD 10 ≤ usedOf s (reqKey req y m) →
      (usageGuard0 env req y m nowMs false false false s).admitted = false ∧
      (usageGuard0 env req y m nowMs false false false s).status = some 402 ∧
      (usageGuard0 env req y m nowMs false false false s).store = s) ∧
    (usedOf s (reqKey req y m) < (CAPS (planOf0 s (reqUid req))).getD 10 →
      (usageGuard0 env req y m nowMs false false false s).admitted = true ∧
      (usageGuard0 env req y m nowMs false false false s).store =
        ⟨s.plans, rset s.usage (reqKey req y m)
          ⟨usedOf s (reqKey req y m) + 1, planOf0 s (reqUid req), monthKey y m, nowMs⟩⟩) ∧
    (∀ (hdr : Option String) (ip : String) (mm : Nat) (sM : List (String × RecMvp)),
      (CAPSMvp (getPlanMvp hdr)).getD 0 ≤ usedOfMvp sM ip mm →
      (capMvp hdr ip mm sM).admitted = false ∧
      (capMvp hdr ip mm sM).status = some 402 ∧
      (capMvp hdr ip mm sM).store = sM) := by
  refine ⟨?_, ?_, ?_⟩
  · intro h
    rw [guard0_reject env req y m nowMs s hadm h]
    exact ⟨rfl, rfl, rfl⟩
  · intro h
    rw [guard0_allow env req y m nowMs s hadm h]
    exact ⟨rfl, rfl⟩
  · intro hdr ip mm sM h
    simp [capMvp, h]

/-- Witness for `c3_reject_no_mutation_admit_increment`: identity `"u1"`,
free plan, stored `used = 10` in `2025-11` — the request is rejected and the
store is returned unchanged. -/
theorem c3_reject_witness :
    (usageGuard0 ⟨some "k"⟩ ⟨none, some "u1", none⟩ 2025 10 0 false false false
        ⟨[], [(reqKey ⟨none, some "u1", none⟩ 2025 10,
          ⟨10, "free", monthKey 2025 10, 0⟩)]⟩).admitted = false ∧
    (usageGuard0 ⟨some "k"⟩ ⟨none, some "u1", none⟩ 2025 10 0 false false false
        ⟨[], [(reqKey ⟨none, some "u1", none⟩ 2025 10,
          ⟨10, "free", monthKey 2025 10, 0⟩)]⟩).status = some 402 ∧
    (usageGuard0 ⟨some "k"⟩ ⟨none, some "u1", none⟩ 2025 10 0 false false false
        ⟨[], [(reqKey ⟨none, some "u1", none⟩ 2025 10,
          ⟨10, "free", monthKey 2025 10, 0⟩)]⟩).store =
      ⟨[], [(reqKey ⟨none, some "u1", none⟩ 2025 10,
        ⟨10, "free", monthKey 2025 10, 0⟩)]⟩ :=
  (c3_reject_no_mutation_admit_increment ⟨some "k"⟩ ⟨none, some "u1", none⟩ 2025 10 0
      ⟨[], [(reqKey ⟨none, some "u1", none⟩ 2025 10, ⟨10, "free", monthKey 2025 10, 0⟩)]⟩
      (by decide)).1 (by decide)

/-! ## Decimal rendering lemmas

These support the billing-period-key claims: the year and padded month parts
of `monthKey` are digit strings, decimal rendering is injective, and (for
equal-length digit strings) numerically smaller means lexicographically
smaller. -/

theorem natDigitsAux_fuel_irrel :
    ∀ (f₁ f₂ n : Nat), n < f₁ → n < f₂ → natDigitsAux f₁ n = natDigitsAux f₂ n := by
  intro f₁
  induction f₁ with
  | zero =>
    intro f₂ n h₁ _
    omega
  | succ f ih =>
    intro f₂ n h₁ h₂
    cases f₂ with
    | zero => omega
    | succ g =>
      simp only [natDigitsAux]
      by_cases hn : n < 10
      · simp [hn]
      · simp only [if_neg hn]
        rw [ih g (n / 10) (by omega) (by omega)]

/-- Unfolding equation for `natDigits`. -/
theorem natDigits_eq (n : Nat) :
    natDigits n = if n < 10 then [digitChar n]
      else natDigits (n / 10) ++ [digitChar (n % 10)] := by
  by_cases hn : n < 10
  · simp [natDigits, natDigitsAux, hn]
  · show natDigitsAux (n + 1) n = _
    simp only [natDigitsAux, if_neg hn]
    rw [natDigitsAux_fuel_irrel n (n / 10 + 1) (n / 10) (by omega) (by omega)]
    rfl

theorem natDigits_length_pos (n : Nat) : 1 ≤ (natDigits n).length := by
  rw [natDigits_eq n]
  by_cases hn : n < 10
  · simp [hn]
  · simp [hn]

theorem natDigits_length_two (n : Nat) (h : 10 ≤ n) : 2 ≤ (natDigits n).length := by
  rw [natDigits_eq n]
  have hn : ¬ n < 10 := by omega
  simp only [if_neg hn, List.length_append, List.length_cons, List.length_nil]
  have := natDigits_length_pos (n / 10)
  omega

theorem digitChar_ne_dash (d : Nat) : digitChar d ≠ '-' := by
  unfold digitChar
  repeat' split
  all_goals decide

theorem digitChar_inj :
    ∀ a, a < 10 → ∀ b, b < 10 → digitChar a = digitChar b → a = b := by
  decide

theorem natDigits_ne_dash : ∀ (n : Nat), ∀ c ∈ natDigits n, c ≠ '-' := by
  intro n
  induction n using Nat.strong_induction_on with
  | _ n ih =>
    rw [natDigits_eq n]
    by_cases hn : n < 10
    · simp only [if_pos hn]
      intro c hc
      rw [List.mem_singleton] at hc
      rw [hc]
      exact digitChar_ne_dash n
    · simp only [if_neg hn]
      intro c hc
      rcases List.mem_append.mp hc with h | h
      · exact ih (n / 10) (by omega) c h
      · rw [List.mem_singleton] at h
        rw [h]
        exact digitChar_ne_dash (n % 10)

theorem natDigits_inj : ∀ (a b : Nat), natDigits a = natDigits b → a = b := by
  intro a
  induction a using Nat.strong_induction_on with
  | _ a ih =>
    intro b h
    rw [natDigits_eq a, natDigits_eq b] at h
    by_cases ha : a < 10 <;> by_cases hb : b < 10
    · simp only [if_pos ha, if_pos hb] at h
      injection h with h1 _
      exact digitChar_inj a ha b hb h1
    · exfalso
      simp only [if_pos ha, if_neg hb] at h
      have hl := congrArg List.length h
      simp only [List.length_singleton, List.length_append, List.length_cons,
        List.length_nil] at hl
      have := natDigits_length_pos (b / 10)
      omega
    · exfalso
      simp only [if_neg ha, if_pos hb] at h
      have hl := congrArg List.length h
      simp only [List.length_singleton, List.length_append, List.length_cons,
        List.length_nil] at hl
      have := natDigits_length_pos (a / 10)
      omega
    · simp only [if_neg ha, if_neg hb] at h
      have hp := List.append_inj' h rfl
      have hdiv : a / 10 = b / 10 := ih (a / 10) (by omega) (b / 10) hp.1
      have hmodc : digitChar (a % 10) = digitChar (b % 10) := by
        injection hp.2
      have hmod : a % 10 = b % 10 :=
        digitChar_inj (a % 10) (by omega) (b % 10) (by omega) hmodc
      omega

/-- Splitting a digit-prefixed character list at the single separator. -/
theorem append_dash_inj :
    ∀ (l₁ l₂ r₁ r₂ : List Char), (∀ c ∈ l₁, c ≠ '-') → (∀ c ∈ l₂, c ≠ '-') →
      l₁ ++ '-' :: r₁ = l₂ ++ '-' :: r₂ → l₁ = l₂ ∧ r₁ = r₂ := by
  intro l₁
  induction l₁ with
  | nil =>
    intro l₂ r₁ r₂ _ h₂ h
    cases l₂ with
    | nil =>
      simp only [List.nil_append] at h
      injection h with _ h2
      exact ⟨rfl, h2⟩
    | cons c t =>
      exfalso
      simp only [List.nil_append, List.cons_append] at h
      injection h with h1 _
      exact h₂ c (by simp) h1.symm
  | cons a t ih =>
    intro l₂ r₁ r₂ h₁ h₂ h
    cases l₂ with
    | nil =>
      exfalso
      simp only [List.cons_append, List.nil_append] at h
      injection h with h1 _
      exact h₁ a (by simp) h1
    | cons b u =>
      simp only [List.cons_append] at h
      injection h with h1 h2
      have hrec := ih u r₁ r₂ (fun c hc => h₁ c (by simp [hc]))
        (fun c hc => h₂ c (by simp [hc])) h2
      exact ⟨by rw [h1, hrec.1], hrec.2⟩

theorem pad2Chars_inj :
    ∀ m₁, m₁ < 12 → ∀ m₂, m₂ < 12 →
      pad2Chars (m₁ + 1) = pad2Chars (m₂ + 1) → m₁ = m₂ := by
  decide

/-- The part_000/part_001 billing-period key determines the calendar month:
distinct `(year, month)` pairs give distinct keys. -/
theorem monthKey_pair_inj (y₁ m₁ y₂ m₂ : Nat) (h₁ : m₁ < 12) (h₂ : m₂ < 12)
    (h : monthKey y₁ m₁ = monthKey y₂ m₂) : y₁ = y₂ ∧ m₁ = m₂ := by
  have hd : monthKeyChars y₁ m₁ = monthKeyChars y₂ m₂ := congrArg String.data h
  unfold monthKeyChars at hd
  have hsplit := append_dash_inj (natDigits y₁) (natDigits y₂)
    (pad2Chars (m₁ + 1)) (pad2Chars (m₂ + 1))
    (natDigits_ne_dash y₁) (natDigits_ne_dash y₂) hd
  exact ⟨natDigits_inj y₁ y₂ hsplit.1, pad2Chars_inj m₁ h₁ m₂ h₂ hsplit.2⟩

/-- The key of the successor month differs from the key of the month
itself. -/
theorem monthKey_succ_ne (y m : Nat) (hm : m < 12) :
    monthKey (succMonth y m).1 (succMonth y m).2 ≠ monthKey y m := by
  unfold succMonth
  by_cases hm11 : m = 11
  · simp only [if_pos hm11]
    intro h
    have := monthKey_pair_inj (y + 1) 0 y m (by omega) hm h
    omega
  · simp only [if_neg hm11]
    intro h
    have := monthKey_pair_inj y (m + 1) y m (by omega) hm h
    omega

theorem string_append_right_inj (p a b : String) (h : p ++ a = p ++ b) : a = b := by
  cases p with
  | mk pl =>
    cases a with
    | mk al =>
      cases b with
      | mk bl =>
        have h' : pl ++ al = pl ++ bl := congrArg String.data h
        have hab : al = bl := List.append_cancel_left h'
        rw [hab]

/-- Distinct months give distinct usage-ledger keys for the same identity. -/
theorem usageKey_month_ne (uid a b : String) (h : a ≠ b) :
    usageKey uid a ≠ usageKey uid b := by
  intro he
  exact h (string_append_right_inj ("ql:usage:" ++ uid ++ ":") a b he)

/-! ## C4 — lazy monthly rollover -/

/-- Every plan the part_001 header resolution can produce has a cap of at
least 10 (`CAPS = {free: 10, starter: 150, growth: 500}`). -/
theorem caps_getPlan1_ge (hdr : Option String) : 10 ≤ (CAPS (getPlan1 hdr)).getD 0 := by
  simp only [getPlan1]
  split
  next h => rcases h with h | h | h <;> rw [h] <;> decide
  next _ => decide

/-- part_001 lines 105–113: a stored record whose `month` differs from the
current period is reset to `used = 0` before the increment, so the request
is admitted and the persisted count is 1. -/
theorem mw1_stale_month_resets (adminHdr adminKeyEnv planHdr : Option String)
    (vid : String) (y' m' : Nat) (sc : List (String × Rec1)) (r : Rec1)
    (hadm1 : isAdmin1 adminHdr adminKeyEnv = false)
    (hr : rget sc ("usage:" ++ vid) = some r)
    (hne : r.month ≠ monthKey y' m') :
    (middleware001 adminHdr adminKeyEnv planHdr vid y' m' false false sc).admitted = true ∧
    usedOf1 (middleware001 adminHdr adminKeyEnv planHdr vid y' m' false false sc).store
      ("usage:" ++ vid) = 1 := by
  have hlim := caps_getPlan1_ge planHdr
  have hnotlt : ¬ ((CAPS (getPlan1 planHdr)).getD 0 < 0 + 1) := by omega
  simp [middleware001, hadm1, hr, hne, usedOf1, rget_rset_self, hnotlt]

/-- C4 (confirmed): an admitted request in month `(y, m)` followed by a
request in the successor month yields `used = 1` for the new period no
matter the old count, the old period's record is not deleted (lazy
rollover), and — for the part_001 store — a stored record whose period
differs from the current period is treated as a fresh record with
`used = 0`. -/
theorem c4_rollover_resets_used_to_one (env : Env0) (req : Req0)
    (y m nowMs L : Nat) (s : Store0)
    (hm : m < 12)
    (hadm : isAdminReq env req = false)
    (hL : (CAPS (planOf0 s (reqUid req))).getD 10 = L)
    (hu : usedOf s (reqKey req y m) < L)
    (hfresh : rget s.usage (reqKey req (succMonth y m).1 (succMonth y m).2) = none) :
    (usageGuard0 env req y m nowMs false false false s).admitted = true ∧
    (usageGuard0 env req (succMonth y m).1 (succMonth y m).2 nowMs false false false
        (usageGuard0 env req y m nowMs false false false s).store).admitted = true ∧
    usedOf (usageGuard0 env req (succMonth y m).1 (succMonth y m).2 nowMs false false false
        (usageGuard0 env req y m nowMs false false false s).store).store
      (reqKey req (succMonth y m).1 (succMonth y m).2) = 1 ∧
    rget (usageGuard0 env req (succMonth y m).1 (succMonth y m).2 nowMs false false false
        (usageGuard0 env req y m nowMs false false false s).store).store.usage
      (reqKey req y m) =
      rget (usageGuard0 env req y m nowMs false false false s).store.usage
        (reqKey req y m) ∧
    (∀ (adminHdr adminKeyEnv planHdr : Option String) (vid : String)
      (sc : List (String × Rec1)) (r : Rec1),
      isAdmin1 adminHdr adminKeyEnv = false →
      rget sc ("usage:" ++ vid) = some r →
      r.month = monthKey y m →
      (middleware001 adminHdr adminKeyEnv planHdr vid (succMonth y m).1 (succMonth y m).2
          false false sc).admitted = true ∧
      usedOf1 (middleware001 adminHdr adminKeyEnv planHdr vid (succMonth y m).1
          (succMonth y m).2 false false sc).store ("usage:" ++ vid) = 1) := by
  have hlt1 : usedOf s (reqKey req y m) < (CAPS (planOf0 s (reqUid req))).getD 10 := by
    rw [hL]; exact hu
  have hstepEq := guard0_allow env req y m nowMs s hadm hlt1
  have hadmit1 : (usageGuard0 env req y m nowMs false false false s).admitted = true := by
    rw [hstepEq]
  have hkne : reqKey req (succMonth y m).1 (succMonth y m).2 ≠ reqKey req y m :=
    usageKey_month_ne (reqUid req) _ _ (monthKey_succ_ne y m hm)
  have hplan1 : planOf0 (usageGuard0 env req y m nowMs false false false s).store
      (reqUid req) = planOf0 s (reqUid req) := by
    rw [hstepEq]
    rfl
  have hused1 : usedOf (usageGuard0 env req y m nowMs false false false s).store
      (reqKey req (succMonth y m).1 (succMonth y m).2) = 0 := by
    rw [hstepEq]
    show usedOf ⟨s.plans, rset s.usage (reqKey req y m)
      ⟨usedOf s (reqKey req y m) + 1, planOf0 s (reqUid req), monthKey y m, nowMs⟩⟩
      (reqKey req (succMonth y m).1 (succMonth y m).2) = 0
    unfold usedOf
    rw [rget_rset_ne s.usage (reqKey req y m) (reqKey req (succMonth y m).1 (succMonth y m).2)
      _ hkne, hfresh]
  have hlt2 : usedOf (usageGuard0 env req y m nowMs false false false s).store
      (reqKey req (succMonth y m).1 (succMonth y m).2) <
      (CAPS (planOf0 (usageGuard0 env req y m nowMs false false false s).store
        (reqUid req))).getD 10 := by
    rw [hused1, hplan1, hL]
    omega
  have hstep2 := guard0_allow env req (succMonth y m).1 (succMonth y m).2 nowMs
    (usageGuard0 env req y m nowMs false false false s).store hadm hlt2
  have hstore2 := guard0_allow_store env req (succMonth y m).1 (succMonth y m).2 nowMs
    (usageGuard0 env req y m nowMs false false false s).store hadm hlt2
  refine ⟨hadmit1, ?_, ?_, ?_, ?_⟩
  · rw [hstep2]
  · rw [hstore2.1, hused1]
  · rw [hstep2]
    show rget (rset (usageGuard0 env req y m nowMs false false false s).store.usage
        (reqKey req (succMonth y m).1 (succMonth y m).2)
        ⟨usedOf (usageGuard0 env req y m nowMs false false false s).store
            (reqKey req (succMonth y m).1 (succMonth y m).2) + 1,
          planOf0 (usageGuard0 env req y m nowMs false false false s).store (reqUid req),
          monthKey (succMonth y m).1 (succMonth y m).2, nowMs⟩)
      (reqKey req y m) =
      rget (usageGuard0 env req y m nowMs false false false s).store.usage (reqKey req y m)
    rw [rget_rset_ne _ _ _ _ (Ne.symm hkne)]
  · intro adminHdr adminKeyEnv planHdr vid sc r hadm1 hr hrm
    exact mw1_stale_month_resets adminHdr adminKeyEnv planHdr vid
      (succMonth y m).1 (succMonth y m).2 sc r hadm1 hr
      (by rw [hrm]; exact Ne.symm (monthKey_succ_ne y m hm))

/-- Witness for `c4_rollover_resets_used_to_one`: identity `"u1"`, free
plan, fresh store, November 2025 then December 2025 — both admitted and the
December count is 1. -/
theorem c4_rollover_witness :
    (usageGuard0 ⟨some "k"⟩ ⟨none, some "u1", none⟩ 2025 10 0 false false false
        store0Empty).admitted = true ∧
    usedOf (usageGuard0 ⟨some "k"⟩ ⟨none, some "u1", none⟩ (succMonth 2025 10).1
        (succMonth 2025 10).2 0 false false false
        (usageGuard0 ⟨some "k"⟩ ⟨none, some "u1", none⟩ 2025 10 0 false false false
          store0Empty).store).store
      (reqKey ⟨none, some "u1", none⟩ (succMonth 2025 10).1 (succMonth 2025 10).2) = 1 :=
  ⟨(c4_rollover_resets_used_to_one ⟨some "k"⟩ ⟨none, some "u1", none⟩ 2025 10 0 10
      store0Empty (by decide) (by decide) (by decide) (by decide) (by decide)).1,
   (c4_rollover_resets_used_to_one ⟨some "k"⟩ ⟨none, some "u1", none⟩ 2025 10 0 10
      store0Empty (by decide) (by decide) (by decide) (by decide) (by decide)).2.2.1⟩

/-! ## C5 — the billing-period key identifies the month and grows with time

The part_000/part_001 key is the string `YYYY-MM`; for the monotonicity half
of the claim the order on keys is the lexicographic string order (the order
JavaScript's `<` gives these keys). -/

theorem digitChar_lt :
    ∀ a, a < 10 → ∀ b, b < 10 → a < b → digitChar a < digitChar b := by
  decide

theorem lex_prefix_lift (p l₁ l₂ : List Char)
    (h : List.Lex (fun c d => c < d) l₁ l₂) :
    List.Lex (fun c d => c < d) (p ++ l₁) (p ++ l₂) := by
  induction p with
  | nil => exact h
  | cons c t ih => exact List.Lex.cons ih

theorem lex_append_left (l₁ l₂ s₁ s₂ : List Char)
    (h : List.Lex (fun c d => c < d) l₁ l₂) :
    l₁.length = l₂.length →
    List.Lex (fun c d => c < d) (l₁ ++ s₁) (l₂ ++ s₂) := by
  induction h with
  | nil =>
    intro hlen
    simp at hlen
  | rel hr =>
    intro _
    exact List.Lex.rel hr
  | cons h ih =>
    intro hlen
    simp only [List.length_cons] at hlen
    exact List.Lex.cons (ih (by omega))

/-- Length recursion for decimal rendering. -/
theorem natDigits_length_eq (n : Nat) :
    (natDigits n).length =
      if n < 10 then 1 else (natDigits (n / 10)).length + 1 := by
  rw [natDigits_eq n]
  by_cases hn : n < 10
  · simp [hn]
  · simp [hn]

/-- Four-digit years render as four characters. -/
theorem natDigits_length_four (y : Nat) (h1 : 1000 ≤ y) (h2 : y ≤ 9999) :
    (natDigits y).length = 4 := by
  have d2 : y / 10 / 10 = y / 100 := by omega
  have d3 : y / 100 / 10 = y / 1000 := by omega
  have e1 := natDigits_length_eq y
  have e2 := natDigits_length_eq (y / 10)
  have e3 := natDigits_length_eq (y / 100)
  have e4 := natDigits_length_eq (y / 1000)
  rw [d2] at e2
  rw [d3] at e3
  rw [if_neg (by omega : ¬ y < 10)] at e1
  rw [if_neg (by omega : ¬ y / 10 < 10)] at e2
  rw [if_neg (by omega : ¬ y / 100 < 10)] at e3
  rw [if_pos (by omega : y / 1000 < 10)] at e4
  omega

/-- Equal-length decimal renderings compare lexicographically like the
numbers themselves. -/
theorem natDigits_lex_of_lt :
    ∀ (b a : Nat), a < b → (natDigits a).length = (natDigits b).length →
      List.Lex (fun c d => c < d) (natDigits a) (natDigits b) := by
  intro b
  induction b using Nat.strong_induction_on with
  | _ b ih =>
    intro a hab hlen
    rw [natDigits_eq a, natDigits_eq b] at hlen ⊢
    by_cases ha : a < 10 <;> by_cases hb : b < 10
    · simp only [if_pos ha, if_pos hb]
      exact List.Lex.rel (digitChar_lt a ha b hb hab)
    · exfalso
      simp only [if_pos ha, if_neg hb, List.length_singleton, List.length_append,
        List.length_cons, List.length_nil] at hlen
      have := natDigits_length_pos (b / 10)
      omega
    · omega
    · simp only [if_neg ha, if_neg hb] at hlen ⊢
      simp only [List.length_append, List.length_cons, List.length_nil] at hlen
      have hlen' : (natDigits (a / 10)).length = (natDigits (b / 10)).length := by omega
      rcases Nat.lt_or_ge (a / 10) (b / 10) with hdiv | hdiv
      · exact lex_append_left _ _ _ _ (ih (b / 10) (by omega) (a / 10) hdiv hlen') hlen'
      · have hdeq : a / 10 = b / 10 := by omega
        have hmod : a % 10 < b % 10 := by omega
        rw [hdeq]
        exact lex_prefix_lift _ _ _
          (List.Lex.rel (digitChar_lt (a % 10) (by omega) (b % 10) (by omega) hmod))

theorem pad2Chars_lt_of_lt :
    ∀ m₁, m₁ < 12 → ∀ m₂, m₂ < 12 → m₁ < m₂ →
      pad2Chars (m₁ + 1) < pad2Chars (m₂ + 1) := by
  decide

/-- Strict growth of the `YYYY-MM` key along calendar time, for four-digit
years. -/
theorem monthKey_lt_of_time_lt (y₁ m₁ y₂ m₂ : Nat)
    (hm₁ : m₁ < 12) (hm₂ : m₂ < 12)
    (hy₁ : 1000 ≤ y₁) (hy₁' : y₁ ≤ 9999) (hy₂ : 1000 ≤ y₂) (hy₂' : y₂ ≤ 9999)
    (h : y₁ < y₂ ∨ (y₁ = y₂ ∧ m₁ < m₂)) :
    monthKey y₁ m₁ < monthKey y₂ m₂ := by
  rw [String.lt_iff_toList_lt]
  show List.Lex (fun c d => c < d) (monthKeyChars y₁ m₁) (monthKeyChars y₂ m₂)
  unfold monthKeyChars
  rcases h with h | ⟨hy, hm⟩
  · have hlen : (natDigits y₁).length = (natDigits y₂).length := by
      rw [natDigits_length_four y₁ hy₁ hy₁', natDigits_length_four y₂ hy₂ hy₂']
    exact lex_append_left _ _ _ _ (natDigits_lex_of_lt y₂ y₁ h hlen) hlen
  · subst hy
    apply lex_prefix_lift
    apply List.Lex.cons
    exact pad2Chars_lt_of_lt m₁ hm₁ m₂ hm₂ hm

/-- C5 (counterexample): in `src/server.js` the billing-period key is the
bare month index (line 59), so November 2025 and November 2026 — distinct
calendar months — get the same key; the key also decreases from December to
the following January; and concretely, a free-tier record written a year
earlier at `used = 15` still blocks a request in the same-named month of the
next year. -/
theorem c5_monthIdx_reused_counterexample :
    monthIdxKey 2025 10 = monthIdxKey 2026 10 ∧
    ((2025, 10) : Nat × Nat) ≠ (2026, 10) ∧
    monthIdxKey 2026 0 < monthIdxKey 2025 11 ∧
    (capMvp none "203.0.113.7" 10 [("203.0.113.7", ⟨10, 15, "free"⟩)]).status =
      some 402 := by
  decide

/-- C5 (amended): the `YYYY-MM` key of part_000/part_001 identifies a unique
calendar month — distinct months (including the same month name in different
years) give distinct keys — and is monotonically non-decreasing along
calendar time in the lexicographic string order, for four-digit years.  (The
`src/server.js` gate instead keys by the bare month index, which is reused
across years and decreases at each year boundary.) -/
theorem c5_monthKey_unique_and_monotone (y₁ m₁ y₂ m₂ : Nat)
    (hm₁ : m₁ < 12) (hm₂ : m₂ < 12)
    (hy₁ : 1000 ≤ y₁) (hy₁' : y₁ ≤ 9999) (hy₂ : 1000 ≤ y₂) (hy₂' : y₂ ≤ 9999) :
    (¬ (y₁ = y₂ ∧ m₁ = m₂) → monthKey y₁ m₁ ≠ monthKey y₂ m₂) ∧
    (y₁ < y₂ ∨ (y₁ = y₂ ∧ m₁ ≤ m₂) →
      monthKey y₁ m₁ < monthKey y₂ m₂ ∨ monthKey y₁ m₁ = monthKey y₂ m₂) := by
  constructor
  · intro hne he
    exact hne (monthKey_pair_inj y₁ m₁ y₂ m₂ hm₁ hm₂ he)
  · intro h
    rcases h with h | ⟨hy, hm⟩
    · exact Or.inl (monthKey_lt_of_time_lt y₁ m₁ y₂ m₂ hm₁ hm₂ hy₁ hy₁' hy₂ hy₂'
        (Or.inl h))
    · rcases Nat.lt_or_ge m₁ m₂ with hlt | hge
      · exact Or.inl (monthKey_lt_of_time_lt y₁ m₁ y₂ m₂ hm₁ hm₂ hy₁ hy₁' hy₂ hy₂'
          (Or.inr ⟨hy, hlt⟩))
      · have : m₁ = m₂ := by omega
        rw [hy, this]
        exact Or.inr rfl

/-- Witness for `c5_monthKey_unique_and_monotone` at November 2025 versus
April 2026. -/
theorem c5_monthKey_witness :
    (¬ ((2025 : Nat) = 2026 ∧ (10 : Nat) = 3) →
      monthKey 2025 10 ≠ monthKey 2026 3) ∧
    ((2025 : Nat) < 2026 ∨ ((2025 : Nat) = 2026 ∧ (10 : Nat) ≤ 3) →
      monthKey 2025 10 < monthKey 2026 3 ∨ monthKey 2025 10 = monthKey 2026 3) :=
  c5_monthKey_unique_and_monotone 2025 10 2026 3 (by decide) (by decide)
    (by decide) (by decide) (by decide) (by decide)

/-! ## C6 — storage errors and fail-open -/

/-- C6 (counterexample): on a ledger *read* error the part_001 middleware
does not admit the request unmetered — it treats the ledger as empty,
charges one unit, and persists a reset record (`used = 1`, clobbering the
stored `used = 5`), so the store is mutated. -/
theorem c6_part001_read_error_meters_counterexample :
    (middleware001 none none none "v1" 2025 10 true false
        [("usage:v1", ⟨monthKey 2025 10, "free", 5⟩)]).admitted = true ∧
    (middleware001 none none none "v1" 2025 10 true false
        [("usage:v1", ⟨monthKey 2025 10, "free", 5⟩)]).store ≠
      [("usage:v1", ⟨monthKey 2025 10, "free", 5⟩)] ∧
    usedOf1 (middleware001 none none none "v1" 2025 10 true false
        [("usage:v1", ⟨monthKey 2025 10, "free", 5⟩)]).store "usage:v1" = 1 := by
  decide

/-- C6 (amended): the part_000 guard admits without metering — the whole
guard body is one `try` whose `catch` calls `next()` — whichever storage
call throws (plan read, usage read, or usage write), and the error never
escapes the guard; the part_001 middleware fails open unmetered on a *write*
error, but on a *read* error it admits the request while persisting a reset
record (a metered admit). -/
theorem c6_fail_open_admits_unmetered (env : Env0) (req : Req0)
    (y m nowMs : Nat) (s : Store0) (fr fw : Bool)
    (hadm : isAdminReq env req = false) :
    usageGuard0 env req y m nowMs true fr fw s = failOpen0 s ∧
    usageGuard0 env req y m nowMs false true fw s = failOpen0 s ∧
    (usedOf s (reqKey req y m) < (CAPS (planOf0 s (reqUid req))).getD 10 →
      usageGuard0 env req y m nowMs false false true s = failOpen0 s) ∧
    (∀ (adminHdr adminKeyEnv planHdr : Option String) (vid : String) (y' m' : Nat)
      (frb : Bool) (sc : List (String × Rec1)),
      isAdmin1 adminHdr adminKeyEnv = false →
      (middleware001 adminHdr adminKeyEnv planHdr vid y' m' frb true sc).admitted = true ∧
      (middleware001 adminHdr adminKeyEnv planHdr vid y' m' frb true sc).store = sc ∧
      (middleware001 adminHdr adminKeyEnv planHdr vid y' m' frb true sc).status = none) := by
  refine ⟨?_, ?_, ?_, ?_⟩
  · simp [usageGuard0, hadm]
  · simp [usageGuard0, hadm]
  · intro hlt
    have h' : ¬ ((CAPS (planOf0 s (reqUid req))).getD 10 ≤ usedOf s (reqKey req y m)) := by
      omega
    simp [usageGuard0, hadm, h']
  · intro adminHdr adminKeyEnv planHdr vid y' m' frb sc h1
    refine ⟨?_, ?_, ?_⟩ <;> simp [middleware001, h1]

/-- Witness for `c6_fail_open_admits_unmetered`: a plan-read failure for
identity `"u1"` produces the fail-open result with the store untouched. -/
theorem c6_fail_open_witness :
    usageGuard0 ⟨some "k"⟩ ⟨none, some "u1", none⟩ 2025 10 0 true false false
      store0Empty = failOpen0 store0Empty :=
  (c6_fail_open_admits_unmetered ⟨some "k"⟩ ⟨none, some "u1", none⟩ 2025 10 0 store0Empty
    false false (by decide)).1

/-! ## C7 — webhook signature verification -/

/-- C7 (confirmed): when the signature does not verify against the raw
payload, `constructEvent` throws and the handler responds 400 having mutated
nothing (part_000 lines 184–189 return before any `redis.set`); state
mutation can only happen after verification succeeds. -/
theorem c7_webhook_bad_signature_rejected (ev : WebhookEvent) (s : Store0) :
    webhook0 false ev s = (400, s) := rfl

/-! ## C8 — subscription cancellation -/

/-- C8 (code bug demonstrated): activation stores the paid tier under
`ql:plan:${session.metadata.userId}` (part_000 lines 194–201), but
cancellation writes `"free"` under `ql:plan:${sub.customer}` — the Stripe
customer id (lines 204–210, despite the comment "find user by scanning
Redis").  After an activation for identity `"u1"` followed by the
cancellation of that subscription (customer `"cus_42"`), `getPlan` for
`"u1"` still returns the paid tier. -/
theorem c8_cancellation_keyed_by_customer_id :
    planOf0 (webhook0 true ⟨"customer.subscription.deleted", "", "", "cus_42"⟩
        (webhook0 true ⟨"checkout.session.completed", "u1", STARTER_PRICE, "cus_42"⟩
          store0Empty).2).2 "u1" = "starter" ∧
    planOf0 (webhook0 true ⟨"customer.subscription.deleted", "", "", "cus_42"⟩
        (webhook0 true ⟨"checkout.session.completed", "u1", STARTER_PRICE, "cus_42"⟩
          store0Empty).2).2 "u1" ≠ "free" ∧
    planOf0 (webhook0 true ⟨"customer.subscription.deleted", "", "", "cus_42"⟩
        (webhook0 true ⟨"checkout.session.completed", "u1", STARTER_PRICE, "cus_42"⟩
          store0Empty).2).2 "cus_42" = "free" := by
  decide

/-! ## C9 — administrative override -/

/-- C9 (confirmed): a request bearing the correct (non-empty) administrative
secret is admitted by both Redis-backed gates with the unlimited-remaining
signal (`X-Remaining: INF` resp. `∞`) and the store returned exactly as it
was — no read-dependent write and no increment for any identity, whatever
the failure flags. -/
theorem c9_admin_bypass_no_ledger_mutation (env : Env0) (req : Req0)
    (y m nowMs : Nat) (fp fr fw : Bool) (s : Store0)
    (h : isAdminReq env req = true) :
    usageGuard0 env req y m nowMs fp fr fw s =
      ⟨true, none, some "boss", some "INF", none, s⟩ ∧
    (∀ (adminHdr adminKeyEnv planHdr : Option String) (vid : String) (y' m' : Nat)
      (frb fwb : Bool) (sc : List (String × Rec1)),
      isAdmin1 adminHdr adminKeyEnv = true →
      middleware001 adminHdr adminKeyEnv planHdr vid y' m' frb fwb sc =
        ⟨true, none, some "boss", some "∞", none, sc⟩) := by
  constructor
  · simp [usageGuard0, h]
  · intro adminHdr adminKeyEnv planHdr vid y' m' frb fwb sc h1
    simp [middleware001, h1]

/-- Witness for `c9_admin_bypass_no_ledger_mutation`: the matching secret
`"sekret"` yields the boss bypass with the store unchanged. -/
theorem c9_admin_witness :
    usageGuard0 ⟨some "sekret"⟩ ⟨some "sekret", none, none⟩ 2025 10 0 false false false
      store0Empty = ⟨true, none, some "boss", some "INF", none, store0Empty⟩ :=
  (c9_admin_bypass_no_ledger_mutation ⟨some "sekret"⟩ ⟨some "sekret", none, none⟩
    2025 10 0 false false false store0Empty (by decide)).1

/-! ## C10 — validation failure after the quota was consumed -/

/-- C10 (confirmed): for a non-admin request under its cap whose `features`
trims to the empty string, the part_000 pipeline answers HTTP 400 from the
`/generate` body validation, but the guard has already incremented and
persisted the caller's count for the current period; the consumed unit is
not refunded. -/
theorem c10_empty_features_400_after_consume (env : Env0) (req : Req0)
    (y m nowMs : Nat) (features : String) (s : Store0)
    (hadm : isAdminReq env req = false)
    (hlt : usedOf s (reqKey req y m) < (CAPS (planOf0 s (reqUid req))).getD 10)
    (hfeat : jsTrim features = "") :
    (pipeline0 env req y m nowMs features s).1 = PipeOutcome.badRequest ∧
    pipeStatus (pipeline0 env req y m nowMs features s).1 = some 400 ∧
    usedOf (pipeline0 env req y m nowMs features s).2 (reqKey req y m) =
      usedOf s (reqKey req y m) + 1 := by
  have hstep := guard0_allow env req y m nowMs s hadm hlt
  have hadm1 : (usageGuard0 env req y m nowMs false false false s).admitted = true := by
    rw [hstep]
  have hst := guard0_allow_store env req y m nowMs s hadm hlt
  refine ⟨?_, ?_, ?_⟩
  · simp [pipeline0, hadm1, hfeat]
  · simp [pipeline0, hadm1, hfeat, pipeStatus]
  · have hsnd : (pipeline0 env req y m nowMs features s).2 =
        (usageGuard0 env req y m nowMs false false false s).store := by
      simp [pipeline0, hadm1, hfeat]
    rw [hsnd]
    exact hst.1

/-- Witness for `c10_empty_features_400_after_consume`: identity `"u1"`,
free plan, empty `features`, fresh store. -/
theorem c10_empty_features_witness :
    (pipeline0 ⟨some "k"⟩ ⟨none, some "u1", none⟩ 2025 10 0 "" store0Empty).1 =
      PipeOutcome.badRequest ∧
    pipeStatus (pipeline0 ⟨some "k"⟩ ⟨none, some "u1", none⟩ 2025 10 0 ""
      store0Empty).1 = some 400 ∧
    usedOf (pipeline0 ⟨some "k"⟩ ⟨none, some "u1", none⟩ 2025 10 0 "" store0Empty).2
        (reqKey ⟨none, some "u1", none⟩ 2025 10) =
      usedOf store0Empty (reqKey ⟨none, some "u1", none⟩ 2025 10) + 1 :=
  c10_empty_features_400_after_consume ⟨some "k"⟩ ⟨none, some "u1", none⟩ 2025 10 0 ""
    store0Empty (by decide) (by decide) (by decide)

end QuickListing
